import Mathlib

/-!
Verification of the adaptive deforestation-detection scoring pipeline
(`src/ml/algorithms/deforestation.py` of the IndiAlert repository).

All raster operations of the scoring core are elementwise, so per-pixel
values are embedded as rationals (`ℚ`) and every raster-algebra expression
of the source becomes a function of the pixel values of its input bands.
Boolean mask images (`.gt`, `.And`, `.Or`, `.Not` chains) become decidable
propositions, and multiplication by a mask image becomes multiplication by
the 0/1 indicator `ind`.  The morphological post-filter
(`filter_false_positives`) is the one genuinely spatial stage; it is
embedded over the integer grid `ℤ × ℤ`.

Section layout:
  1. generic helpers (`clamp`, `ind`);
  2. `_calculate_vegetation_indices`;
  3. `_calculate_primary_score`;
  4. `_apply_seasonal_filtering`;
  5. `_vegetation_baseline_filter` and `_apply_false_positive_filters`;
  6. `_calculate_adaptive_parameters`, `analyze_data_characteristics`;
  7. grid embedding of `filter_false_positives`;
  8. theorems for the claims.
-/

namespace IndiAlert

/-- Elementwise `image.clamp(lo, hi)` of Earth Engine: values limited to
the closed interval `[lo, hi]`. -/
def clamp (x lo hi : ℚ) : ℚ := max lo (min x hi)

/-- Indicator value of a boolean mask image at one pixel: Earth Engine
comparison operators yield 0/1 images, and multiplying by such an image
multiplies by 0 or 1. -/
def ind (p : Prop) [Decidable p] : ℚ := if p then 1 else 0

theorem clamp_mono {x y : ℚ} (lo hi : ℚ) (h : x ≤ y) :
    clamp x lo hi ≤ clamp y lo hi :=
  max_le_max le_rfl (min_le_min h le_rfl)

theorem clamp_lower (x lo hi : ℚ) : lo ≤ clamp x lo hi := le_max_left _ _

theorem clamp_upper {lo hi : ℚ} (x : ℚ) (h : lo ≤ hi) : clamp x lo hi ≤ hi :=
  max_le h (min_le_right _ _)

theorem le_clamp {c lo : ℚ} (x hi : ℚ) (h : c ≤ lo) : c ≤ clamp x lo hi :=
  le_trans h (le_max_left _ _)

theorem clamp_le {c lo hi : ℚ} (x : ℚ) (h1 : lo ≤ c) (h2 : hi ≤ c) :
    clamp x lo hi ≤ c :=
  max_le h1 (le_trans (min_le_right _ _) h2)

theorem le_clamp_of {c x lo hi : ℚ} (hx : c ≤ x) (hhi : c ≤ hi) :
    c ≤ clamp x lo hi :=
  le_trans (le_min hx hhi) (le_max_right _ _)

theorem ind_nonneg (p : Prop) [Decidable p] : 0 ≤ ind p := by
  unfold ind
  split <;> norm_num

theorem ind_le_one (p : Prop) [Decidable p] : ind p ≤ 1 := by
  unfold ind
  split <;> norm_num

theorem ind_of_true {p : Prop} [Decidable p] (h : p) : ind p = 1 := if_pos h

theorem ind_of_false {p : Prop} [Decidable p] (h : ¬ p) : ind p = 0 := if_neg h

theorem ind_mono {p q : Prop} [Decidable p] [Decidable q] (h : p → q) :
    ind p ≤ ind q := by
  unfold ind
  by_cases hp : p
  · rw [if_pos hp, if_pos (h hp)]
  · rw [if_neg hp]
    split <;> norm_num

/-! ## Spectral index calculator (`_calculate_vegetation_indices`)

A pixel of the 5-band `IndexSet` raster produced by the calculator. -/

structure IndexPixel where
  ndvi : ℚ
  evi : ℚ
  savi : ℚ
  ndmi : ℚ
  nbr : ℚ
deriving DecidableEq

/-- Which spectral roles the band-name matching loop of
`_calculate_vegetation_indices` managed to resolve into `band_map`
(role present as a key). -/
structure BandAvail where
  blue : Bool
  green : Bool
  red : Bool
  nir : Bool
  swir1 : Bool
  swir2 : Bool
deriving DecidableEq

/-- Per-pixel reflectance values of the resolved role bands. -/
structure BandPixel where
  blue : ℚ
  green : ℚ
  red : ℚ
  nir : ℚ
  swir1 : ℚ
  swir2 : ℚ

/-- `ee.Image.normalizedDifference([a, b])`: `(a - b) / (a + b)` at one
pixel (Lean total division: 0 on a zero denominator). -/
def normalizedDifference (a b : ℚ) : ℚ := (a - b) / (a + b)

/-- Pixelwise embedding of `_calculate_vegetation_indices`: each index is
computed from its formula when every band it needs was resolved, and
degrades to the constant 0 band otherwise, exactly as in the five
`if 'ROLE' in band_map ... else ee.Image.constant(0)` branches. -/
def calculateVegetationIndices (av : BandAvail) (p : BandPixel) : IndexPixel where
  ndvi := if av.nir && av.red then normalizedDifference p.nir p.red else 0
  evi := if av.nir && av.red && av.blue then
    2.5 * ((p.nir - p.red) / (p.nir + 6 * p.red - 7.5 * p.blue + 1)) else 0
  savi := if av.nir && av.red then
    ((p.nir - p.red) / (p.nir + p.red + 0.5)) * (1 + 0.5) else 0
  ndmi := if av.nir && av.swir1 then normalizedDifference p.nir p.swir1 else 0
  nbr := if av.nir && av.swir2 then normalizedDifference p.nir p.swir2 else 0

/-! ## Primary change scorer (`_calculate_primary_score`)

Arguments `b`/`a` are the before/after `IndexSet` pixels, `sm` is the
adaptive `sensitivity_multiplier` and `T` the adaptive
`vegetation_threshold`. -/

def ndviChange (b a : IndexPixel) : ℚ := b.ndvi - a.ndvi

def eviChange (b a : IndexPixel) : ℚ := b.evi - a.evi

def ndmiChange (b a : IndexPixel) : ℚ := b.ndmi - a.ndmi

def nbrChange (b a : IndexPixel) : ℚ := b.nbr - a.nbr

/-- `ndvi_decrease = ndvi_change.clamp(0, 1)`. -/
def ndviDecrease (b a : IndexPixel) : ℚ := clamp (ndviChange b a) 0 1

/-- `absolute_score`, multiplier `1.8 * sensitivity_multiplier`. -/
def absoluteScore (b a : IndexPixel) (sm : ℚ) : ℚ :=
  clamp (ndviDecrease b a * (1.8 * sm)) 0 1

/-- `relative_ndvi_change = ndvi_change.divide(ndvi_before.add(0.01)).clamp(0, 1)`. -/
def relativeNdviChange (b a : IndexPixel) : ℚ :=
  clamp (ndviChange b a / (b.ndvi + 0.01)) 0 1

/-- `relative_score`, multiplier `1.4 * sensitivity_multiplier`. -/
def relativeScore (b a : IndexPixel) (sm : ℚ) : ℚ :=
  clamp (relativeNdviChange b a * (1.4 * sm)) 0 1

/-- `ndmi_score`, multiplier `1.6 * sensitivity_multiplier` (computed by the
source; not consumed by the final combination). -/
def ndmiScore (b a : IndexPixel) (sm : ℚ) : ℚ :=
  clamp (ndmiChange b a * (1.6 * sm)) 0 1

/-- `nbr_score`, multiplier `1.7 * sensitivity_multiplier`. -/
def nbrScore (b a : IndexPixel) (sm : ℚ) : ℚ :=
  clamp (nbrChange b a * (1.7 * sm)) 0 1

/-- `evi_score`, multiplier `1.2 * sensitivity_multiplier` (computed by the
source; not consumed by the final combination). -/
def eviScoreGeneral (b a : IndexPixel) (sm : ℚ) : ℚ :=
  clamp (eviChange b a * (1.2 * sm)) 0 1

/-- `primary_score = absolute*0.4 + relative*0.3 + nbr*0.3`. -/
def primaryBlend (b a : IndexPixel) (sm : ℚ) : ℚ :=
  absoluteScore b a sm * 0.4 + relativeScore b a sm * 0.3 + nbrScore b a sm * 0.3

/-- `consistency_check` consensus mask. -/
abbrev consistencyCheck (b a : IndexPixel) : Prop :=
  ndviDecrease b a > 0.05 ∧ eviChange b a > 0.03 ∧
    (ndmiChange b a > -0.1 ∨ nbrChange b a > 0.03)

/-- `secondary_score = primary_score.multiply(consistency_check)`. -/
def secondaryScore (b a : IndexPixel) (sm : ℚ) : ℚ :=
  primaryBlend b a sm * ind (consistencyCheck b a)

/-- `negative_ndvi_mask = ndvi_before.lt(0.05)`. -/
abbrev negativeNdviMask (b : IndexPixel) : Prop := b.ndvi < 0.05

/-- `low_ndvi_mask = ndvi_before.lt(vegetation_threshold * 0.3)`. -/
abbrev lowNdviMask (b : IndexPixel) (T : ℚ) : Prop := b.ndvi < T * 0.3

/-- `ultra_degraded_baseline`. -/
abbrev ultraDegradedBaseline (b a : IndexPixel) : Prop :=
  b.ndvi > -0.5 ∧ b.ndvi < 0.05 ∧
    (eviChange b a > 0.008 ∨ nbrChange b a > 0.015)

/-- `evi_degradation_baseline`. -/
abbrev eviDegradationBaseline (b a : IndexPixel) : Prop :=
  b.evi > 0.03 ∧ eviChange b a > 0.008 ∧ b.ndvi < 0.1

/-- `nbr_degradation_baseline`. -/
abbrev nbrDegradationBaseline (b a : IndexPixel) : Prop :=
  b.nbr > -0.1 ∧ nbrChange b a > 0.015 ∧ b.ndvi < 0.15

/-- `degraded_areas_baseline = ultra .Or evi .Or nbr`. -/
abbrev degradedAreasBaseline (b a : IndexPixel) : Prop :=
  ultraDegradedBaseline b a ∨ eviDegradationBaseline b a ∨
    nbrDegradationBaseline b a

/-- `dense_forest_baseline`. -/
abbrev denseForestBaseline (b a : IndexPixel) (T : ℚ) : Prop :=
  b.ndvi > T * 1.5 ∧ a.ndvi < b.ndvi ∧ ¬ negativeNdviMask b

/-- `moderate_vegetation_baseline`. -/
abbrev moderateVegetationBaseline (b a : IndexPixel) (T : ℚ) : Prop :=
  b.ndvi > T ∧ b.ndvi ≤ T * 1.5 ∧ a.ndvi < b.ndvi ∧ ¬ negativeNdviMask b

/-- `standard_sparse_baseline`. -/
abbrev standardSparseBaseline (b a : IndexPixel) (T : ℚ) : Prop :=
  b.ndvi > T * 0.5 ∧ b.ndvi ≤ T ∧ ndviChange b a > 0.05 ∧
    ¬ negativeNdviMask b

/-- `sparse_vegetation_baseline = standard_sparse .Or degraded_areas`. -/
abbrev sparseVegetationBaseline (b a : IndexPixel) (T : ℚ) : Prop :=
  standardSparseBaseline b a T ∨ degradedAreasBaseline b a

/-- `dense_forest_score = secondary_score * 0.8 * dense_forest_baseline`. -/
def denseForestScore (b a : IndexPixel) (sm T : ℚ) : ℚ :=
  secondaryScore b a sm * 0.8 * ind (denseForestBaseline b a T)

/-- `moderate_vegetation_score = primary_score * 0.9 * moderate_vegetation_baseline`. -/
def moderateVegetationScore (b a : IndexPixel) (sm T : ℚ) : ℚ :=
  primaryBlend b a sm * 0.9 * ind (moderateVegetationBaseline b a T)

/-- `standard_sparse_enhanced_score`, multiplier `2.0 * sensitivity_multiplier`. -/
def standardSparseEnhancedScore (b a : IndexPixel) (sm : ℚ) : ℚ :=
  clamp (ndviDecrease b a * (2.0 * sm)) 0 1

/-- `standard_sparse_score`: note the source gates it by the combined
`sparse_vegetation_baseline.And(negative_ndvi_mask.Not())`, not by
`standard_sparse_baseline` alone. -/
def standardSparseScore (b a : IndexPixel) (sm T : ℚ) : ℚ :=
  standardSparseEnhancedScore b a sm *
    ind (sparseVegetationBaseline b a T ∧ ¬ negativeNdviMask b)

/-- Degraded-area `evi_score`, multiplier `5.0 * sensitivity_multiplier`. -/
def eviScoreDegraded (b a : IndexPixel) (sm : ℚ) : ℚ :=
  clamp (eviChange b a * (5.0 * sm)) 0 1

/-- `ndmi_loss_score`, multiplier `4.5 * sensitivity_multiplier`. -/
def ndmiLossScore (b a : IndexPixel) (sm : ℚ) : ℚ :=
  clamp (ndmiChange b a * (4.5 * sm)) 0 1

/-- `nbr_loss_score`, multiplier `4.8 * sensitivity_multiplier`. -/
def nbrLossScore (b a : IndexPixel) (sm : ℚ) : ℚ :=
  clamp (nbrChange b a * (4.8 * sm)) 0 1

/-- `degraded_consensus_score = evi*0.4 + ndmi*0.3 + nbr*0.3`. -/
def degradedConsensusScore (b a : IndexPixel) (sm : ℚ) : ℚ :=
  eviScoreDegraded b a sm * 0.4 + ndmiLossScore b a sm * 0.3 +
    nbrLossScore b a sm * 0.3

/-- `degraded_areas_score`. -/
def degradedAreasScore (b a : IndexPixel) (sm T : ℚ) : ℚ :=
  degradedConsensusScore b a sm *
    ind (sparseVegetationBaseline b a T ∧
      (negativeNdviMask b ∨ lowNdviMask b T))

/-- `sparse_vegetation_score = standard_sparse_score.max(degraded_areas_score)`. -/
def sparseVegetationScore (b a : IndexPixel) (sm T : ℚ) : ℚ :=
  max (standardSparseScore b a sm T) (degradedAreasScore b a sm T)

/-- `any_baseline = dense .Or moderate .Or sparse`. -/
abbrev anyBaseline (b a : IndexPixel) (T : ℚ) : Prop :=
  denseForestBaseline b a T ∨ moderateVegetationBaseline b a T ∨
    sparseVegetationBaseline b a T

/-- `strict_fallback_condition`. -/
abbrev strictFallbackCondition (b a : IndexPixel) (T : ℚ) : Prop :=
  ¬ anyBaseline b a T ∧ ndviChange b a > 0.08 ∧ eviChange b a > 0.05 ∧
    b.ndvi > 0.05

/-- `fallback_score = ndvi_decrease.multiply(1.2).clamp(0, 0.3)`. -/
def fallbackScore (b a : IndexPixel) : ℚ :=
  clamp (ndviDecrease b a * 1.2) 0 0.3

/-- `strict_fallback_score = fallback_score.multiply(strict_fallback_condition)`. -/
def strictFallbackScore (b a : IndexPixel) (T : ℚ) : ℚ :=
  fallbackScore b a * ind (strictFallbackCondition b a T)

/-- `_calculate_primary_score` final combination:
`dense.max(moderate).max(sparse).max(strict_fallback).clamp(0, 1)`. -/
def calculatePrimaryScore (b a : IndexPixel) (sm T : ℚ) : ℚ :=
  clamp
    (max
      (max
        (max (denseForestScore b a sm T) (moderateVegetationScore b a sm T))
        (sparseVegetationScore b a sm T))
      (strictFallbackScore b a T))
    0 1

/-! ## Seasonal filter (`_apply_seasonal_filtering`)

Pixelwise: `s` is the input change-score pixel. -/

/-- `potential_agriculture`. -/
abbrev potentialAgriculture (b a : IndexPixel) : Prop :=
  b.ndvi < 0.4 ∧ a.ndvi < 0.15 ∧ ndviChange b a > 0.25

/-- `seasonal_deciduous`. -/
abbrev seasonalDeciduous (b a : IndexPixel) : Prop :=
  (b.ndvi > 0.3 ∧ b.ndvi < 0.7) ∧ (a.ndvi > 0.2 ∧ a.ndvi < 0.4) ∧
    (ndviChange b a > 0.2 ∧ ndviChange b a < 0.5) ∧
    (eviChange b a > 0.1 ∧ eviChange b a < 0.3)

/-- `strong_signal = score_image.gt(0.7)`. -/
abbrev strongSignal (s : ℚ) : Prop := s > 0.7

/-- `moderate_signal = score_image.gt(0.4).And(score_image.lte(0.7))`. -/
abbrev moderateSignal (s : ℚ) : Prop := s > 0.4 ∧ s ≤ 0.7

/-- `weak_signal = score_image.lte(0.4)`. -/
abbrev weakSignal (s : ℚ) : Prop := s ≤ 0.4

/-- `inconsistent_change`. -/
abbrev inconsistentChange (b a : IndexPixel) : Prop :=
  (ndviChange b a > 0.4 ∧ eviChange b a < 0.15) ∨
    (eviChange b a > 0.4 ∧ ndviChange b a < 0.15)

/-- `likely_false_positive = agriculture .Or (deciduous .And weak) .Or inconsistent`. -/
abbrev likelyFalsePositive (s : ℚ) (b a : IndexPixel) : Prop :=
  potentialAgriculture b a ∨ (seasonalDeciduous b a ∧ weakSignal s) ∨
    inconsistentChange b a

/-- `strong_factor = lfp.multiply(-0.1).add(1.0).clamp(0.9, 1.0)`. -/
def strongFactor (s : ℚ) (b a : IndexPixel) : ℚ :=
  clamp (ind (likelyFalsePositive s b a) * (-0.1) + 1.0) 0.9 1.0

/-- `moderate_factor = lfp.multiply(-0.2).add(1.0).clamp(0.8, 1.0)`. -/
def moderateFactor (s : ℚ) (b a : IndexPixel) : ℚ :=
  clamp (ind (likelyFalsePositive s b a) * (-0.2) + 1.0) 0.8 1.0

/-- `weak_factor = lfp.multiply(-0.4).add(1.0).clamp(0.6, 1.0)`. -/
def weakFactor (s : ℚ) (b a : IndexPixel) : ℚ :=
  clamp (ind (likelyFalsePositive s b a) * (-0.4) + 1.0) 0.6 1.0

/-- `_apply_seasonal_filtering` graduated combination:
`strong*(s*strong_factor) + moderate*(s*moderate_factor) + weak*(s*weak_factor)`. -/
def applySeasonalFiltering (s : ℚ) (b a : IndexPixel) : ℚ :=
  ind (strongSignal s) * (s * strongFactor s b a) +
    ind (moderateSignal s) * (s * moderateFactor s b a) +
    ind (weakSignal s) * (s * weakFactor s b a)

/-! ## False-positive filter cascade (`_apply_false_positive_filters`)

Pixelwise: `s` is the input score, `fp` the adaptive
`false_positive_factor`, and `spatialMean` the 3x3 neighbourhood mean of
the score raster at this pixel (the only non-elementwise input of the
stage, passed in as a value). -/

/-- `_vegetation_baseline_filter`: `meaningful_vegetation`.  (The source
also computes `forest_like_nbr = NBR.gt(0.0)` but never uses it.) -/
abbrev meaningfulVegetation (b : IndexPixel) : Prop :=
  (b.ndvi > 0.1 ∧
    (b.evi > 0.05 ∨ b.ndmi > -0.15 ∨
      (b.ndvi > 0.15 ∨ (b.evi > 0.1 ∧ b.nbr > 0.05)))) ∧
    b.ndvi > -0.3 ∧ b.ndvi > -0.1 ∧ b.ndmi > -0.4

/-- `forest_priority_areas`. -/
abbrev forestPriorityAreas (b : IndexPixel) : Prop :=
  b.ndvi > 0.08 ∧ b.nbr > 0.1

/-- `_vegetation_baseline_filter` result:
`meaningful_vegetation.Or(forest_priority_areas)`. -/
abbrev vegetationBaselineFilter (b : IndexPixel) : Prop :=
  meaningfulVegetation b ∨ forestPriorityAreas b

/-- `ndvi_decreased = ndvi_before.gt(ndvi_after)`. -/
abbrev ndviDecreased (b a : IndexPixel) : Prop := b.ndvi > a.ndvi

/-- `obvious_seasonal`. -/
abbrev obviousSeasonal (b a : IndexPixel) : Prop :=
  b.ndvi > 0.4 ∧ a.ndvi > 0.25 ∧
    (ndviChange b a > 0.15 ∧ ndviChange b a < 0.35) ∧
    eviChange b a / (ndviChange b a + 0.01) < 0.7 ∧
    b.nbr - a.nbr < 0.2

/-- `obvious_agriculture`. -/
abbrev obviousAgriculture (b a : IndexPixel) : Prop :=
  (b.ndvi > 0.2 ∧ b.ndvi < 0.5) ∧ a.ndvi < 0.1 ∧
    ndviChange b a > 0.35 ∧ b.ndmi < 0.2

/-- `cloud_shadow_artifact`. -/
abbrev cloudShadowArtifact (b a : IndexPixel) : Prop :=
  ndviChange b a > 0.4 ∧ eviChange b a > 0.6 ∧
    b.ndmi - a.ndmi > 0.15 ∧ b.nbr - a.nbr > 0.25

/-- `major_forest_loss`. -/
abbrev majorForestLoss (b a : IndexPixel) : Prop :=
  b.ndvi > 0.5 ∧ a.ndvi < 0.25 ∧ b.nbr - a.nbr > 0.3

/-- `moderate_clearing`. -/
abbrev moderateClearing (b a : IndexPixel) : Prop :=
  ndviChange b a > 0.25 ∧ b.ndmi - a.ndmi > 0.1 ∧ a.ndvi < 0.3

/-- `clear_deforestation = major_forest_loss.Or(moderate_clearing)`. -/
abbrev clearDeforestation (b a : IndexPixel) : Prop :=
  majorForestLoss b a ∨ moderateClearing b a

/-- `seasonal_penalty_strength = (1.0 - base_penalty) * 0.15`. -/
def seasonalPenaltyStrength (fp : ℚ) : ℚ := (1.0 - fp) * 0.15

/-- `agricultural_penalty_strength = (1.0 - base_penalty) * 0.20`. -/
def agriculturalPenaltyStrength (fp : ℚ) : ℚ := (1.0 - fp) * 0.20

/-- `cloud_penalty_strength = (1.0 - base_penalty) * 0.25`. -/
def cloudPenaltyStrength (fp : ℚ) : ℚ := (1.0 - fp) * 0.25

/-- `seasonal_penalty = obvious_seasonal.multiply(-str).add(1.0).clamp(0.85, 1.0)`. -/
def seasonalPenalty (b a : IndexPixel) (fp : ℚ) : ℚ :=
  clamp (ind (obviousSeasonal b a) * (-seasonalPenaltyStrength fp) + 1.0)
    0.85 1.0

/-- `agricultural_penalty = obvious_agriculture.multiply(-str).add(1.0).clamp(0.8, 1.0)`. -/
def agriculturalPenalty (b a : IndexPixel) (fp : ℚ) : ℚ :=
  clamp (ind (obviousAgriculture b a) * (-agriculturalPenaltyStrength fp) + 1.0)
    0.8 1.0

/-- `cloud_penalty = cloud_shadow_artifact.multiply(-str).add(1.0).clamp(0.75, 1.0)`. -/
def cloudPenalty (b a : IndexPixel) (fp : ℚ) : ℚ :=
  clamp (ind (cloudShadowArtifact b a) * (-cloudPenaltyStrength fp) + 1.0)
    0.75 1.0

/-- `deforestation_boost_strength = 0.3 + (1.0 - base_penalty) * 0.2`. -/
def deforestationBoostStrength (fp : ℚ) : ℚ := 0.3 + (1.0 - fp) * 0.2

/-- `deforestation_boost = clear_def.multiply(str).add(1.0).clamp(1.0, 1.5)`. -/
def deforestationBoost (b a : IndexPixel) (fp : ℚ) : ℚ :=
  clamp (ind (clearDeforestation b a) * deforestationBoostStrength fp + 1.0)
    1.0 1.5

/-- `spatial_boost = spatial_mean.gt(0.3).multiply(0.15).add(1.0).clamp(1.0, 1.15)`. -/
def spatialBoost (spatialMean : ℚ) : ℚ :=
  clamp (ind (spatialMean > 0.3) * 0.15 + 1.0) 1.0 1.15

/-- `basic_filter = baseline_filter.And(ndvi_decreased)`. -/
abbrev basicFilter (b a : IndexPixel) : Prop :=
  vegetationBaselineFilter b ∧ ndviDecreased b a

/-- `stage2_filtered = score * basic * seasonal * agricultural * cloud`. -/
def stage2Filtered (s : ℚ) (b a : IndexPixel) (fp : ℚ) : ℚ :=
  s * ind (basicFilter b a) * seasonalPenalty b a fp *
    agriculturalPenalty b a fp * cloudPenalty b a fp

/-- `final_filtered = stage2 * deforestation_boost * spatial_boost`. -/
def finalFiltered (s : ℚ) (b a : IndexPixel) (fp spatialMean : ℚ) : ℚ :=
  stage2Filtered s b a fp * deforestationBoost b a fp * spatialBoost spatialMean

/-- `preserved_high_confidence = score * score.gt(0.7) * basic_filter`. -/
def preservedHighConfidence (s : ℚ) (b a : IndexPixel) : ℚ :=
  s * ind (s > 0.7) * ind (basicFilter b a)

/-- `_apply_false_positive_filters` result:
`final_filtered.max(preserved_high_confidence).clamp(0, 1)`. -/
def applyFalsePositiveFilters (s : ℚ) (b a : IndexPixel) (fp spatialMean : ℚ) : ℚ :=
  clamp (max (finalFiltered s b a fp spatialMean) (preservedHighConfidence s b a)) 0 1

/-! ## Adaptive parameters (`_calculate_adaptive_parameters`,
`analyze_data_characteristics`)

Only the fields that the combination step reads are modelled; the
`analysis_summary` strings are irrelevant to the claims. -/

/-- The numeric fields of the `AdaptiveParameters` record. -/
structure AdaptiveParams where
  vegetation_threshold : ℚ
  sensitivity_multiplier : ℚ
  false_positive_factor : ℚ
  confidence_level : ℚ
deriving DecidableEq

/-- Fields of the vegetation-distribution sub-analysis consumed by the
combination step. -/
structure VegStats where
  base_threshold : ℚ
  sensitivity_multiplier : ℚ
deriving DecidableEq

/-- Fields of `_process_user_preferences` consumed by the combination step. -/
structure UserCtx where
  sensitivity_multiplier : ℚ
  fp_factor : ℚ

/-- `_calculate_adaptive_parameters`: products of the sub-step outputs,
bounded by `max(lo, min(hi, x))` exactly as in the source
(`final_vegetation_threshold = max(0.03, min(0.2, ...))` and so on). -/
def calculateAdaptiveParameters (veg : VegStats)
    (seasonalFactor climateFactor confidenceFactor : ℚ)
    (user : UserCtx) : AdaptiveParams where
  vegetation_threshold :=
    max 0.03 (min 0.2 (veg.base_threshold * confidenceFactor))
  sensitivity_multiplier :=
    max 0.5 (min 2.0 (veg.sensitivity_multiplier * climateFactor *
      user.sensitivity_multiplier))
  false_positive_factor :=
    max 0.4 (min 0.95 (seasonalFactor * user.fp_factor))
  confidence_level := confidenceFactor

/-- `_get_fallback_parameters` (numeric fields). -/
def getFallbackParameters : AdaptiveParams where
  vegetation_threshold := 0.12
  sensitivity_multiplier := 1.0
  false_positive_factor := 0.8
  confidence_level := 0.8

/-- The defaults the `except` branch of `_analyze_vegetation_distribution`
returns: `base_threshold 0.08`, `sensitivity_multiplier 1.1`. -/
def vegAnalysisFallback : VegStats where
  base_threshold := 0.08
  sensitivity_multiplier := 1.1

/-- `_analyze_seasonal_context` `except` default: `false_positive_factor 0.8`. -/
def seasonalAnalysisFallback : ℚ := 0.8

/-- `_analyze_geographic_context` `except` default: `climate_factor 1.0`. -/
def geographicAnalysisFallback : ℚ := 1.0

/-- `_analyze_data_quality` `except` default: `confidence_factor 0.8`. -/
def dataQualityAnalysisFallback : ℚ := 0.8

/-- `analyze_data_characteristics`: each sub-analysis carries its own
`try/except` that replaces a failure (`Except.error`) by that sub-step's
conservative defaults, after which the combination step always runs; the
outer handler that would return `_get_fallback_parameters` is reached only
if the orchestration itself raised.  The result is therefore always
`Except.ok`. -/
def analyzeDataCharacteristics (vegRes : Except String VegStats)
    (seasRes geoRes qualRes : Except String ℚ)
    (user : UserCtx) : Except String AdaptiveParams :=
  let veg := match vegRes with
    | Except.ok v => v
    | Except.error _ => vegAnalysisFallback
  let seasonalFactor := match seasRes with
    | Except.ok v => v
    | Except.error _ => seasonalAnalysisFallback
  let climateFactor := match geoRes with
    | Except.ok v => v
    | Except.error _ => geographicAnalysisFallback
  let confidenceFactor := match qualRes with
    | Except.ok v => v
    | Except.error _ => dataQualityAnalysisFallback
  Except.ok (calculateAdaptiveParameters veg seasonalFactor climateFactor
    confidenceFactor user)

/-- The `sensitivity = balanced`, `false_positive_tolerance = moderate`
defaults of `_process_user_preferences`. -/
def balancedUser : UserCtx where
  sensitivity_multiplier := 1.0
  fp_factor := 0.75

/-! ## Morphological post-filter (`filter_false_positives`)

This stage is spatial, so it is embedded over the integer pixel grid
`ℤ × ℤ`.  A score raster is a function `ℤ × ℤ → ℚ` and a mask raster a
function `ℤ × ℤ → Bool`.  `focal_min`/`focal_max` with
`ee.Kernel.square(radius=1)` take the min/max over the 3x3 window, which
on a 0/1 mask is the conjunction/disjunction over the 9 neighbours.
`connectedPixelCount(maxSize=256)` (4-connected by default) is the size of
the connected component of a mask pixel, capped by bounding the flood-fill
expansion at 256 rounds.  The AOI-boundary `edge_mask` derives from
geometry buffering, which is outside the raster algebra; it stays an
arbitrary mask parameter. -/

/-- The nine offsets of a 3x3 `ee.Kernel.square(radius=1)` window. -/
def kernelSquare1 : List (ℤ × ℤ) :=
  [(-1, -1), (-1, 0), (-1, 1), (0, -1), (0, 0), (0, 1), (1, -1), (1, 0), (1, 1)]

/-- Translate a pixel position by an offset. -/
def shift (p o : ℤ × ℤ) : ℤ × ℤ := (p.1 + o.1, p.2 + o.2)

/-- `focal_min` of a 0/1 mask over the 3x3 window (erosion). -/
def focalMin (m : ℤ × ℤ → Bool) (p : ℤ × ℤ) : Bool :=
  kernelSquare1.all (fun o => m (shift p o))

/-- `focal_max` of a 0/1 mask over the 3x3 window (dilation). -/
def focalMax (m : ℤ × ℤ → Bool) (p : ℤ × ℤ) : Bool :=
  kernelSquare1.any (fun o => m (shift p o))

/-- The four 4-connectivity neighbours of a pixel. -/
def neighbors4 (p : ℤ × ℤ) : List (ℤ × ℤ) :=
  [(p.1 + 1, p.2), (p.1 - 1, p.2), (p.1, p.2 + 1), (p.1, p.2 - 1)]

/-- One round of flood-fill expansion of a pixel set through the mask. -/
def expandComponent (m : ℤ × ℤ → Bool) (s : Finset (ℤ × ℤ)) : Finset (ℤ × ℤ) :=
  s ∪ s.biUnion (fun q => ((neighbors4 q).filter (fun r => m r)).toFinset)

/-- `connectedPixelCount(maxSize=256)` at a pixel of a mask. -/
def connectedPixelCount (m : ℤ × ℤ → Bool) (p : ℤ × ℤ) : ℕ :=
  if m p then ((expandComponent m)^[256] {p}).card else 0

/-- `strong_mask = score.gte(0.7)`. -/
def strongMask (s : ℤ × ℤ → ℚ) (p : ℤ × ℤ) : Bool := decide (s p ≥ 0.7)

/-- `moderate_mask = score.gte(0.4).And(score.lt(0.7))`. -/
def moderateMask (s : ℤ × ℤ → ℚ) (p : ℤ × ℤ) : Bool :=
  decide (s p ≥ 0.4) && decide (s p < 0.7)

/-- `weak_mask = score.gte(0.15).And(score.lt(0.4))`. -/
def weakMask (s : ℤ × ℤ → ℚ) (p : ℤ × ℤ) : Bool :=
  decide (s p ≥ 0.15) && decide (s p < 0.4)

/-- `strong_processed = strong_mask.focal_min(1).focal_max(1)`. -/
def strongProcessed (s : ℤ × ℤ → ℚ) : ℤ × ℤ → Bool :=
  focalMax (focalMin (strongMask s))

/-- `moderate_processed = moderate_mask.focal_min(1).focal_max(1)`. -/
def moderateProcessed (s : ℤ × ℤ → ℚ) : ℤ × ℤ → Bool :=
  focalMax (focalMin (moderateMask s))

/-- `weak_processed = weak_mask.focal_min(1).focal_max(iterations=2)`. -/
def weakProcessed (s : ℤ × ℤ → ℚ) : ℤ × ℤ → Bool :=
  focalMax (focalMax (focalMin (weakMask s)))

/-- `strong_size_filtered = strong_processed` (no size filtering for
strong signals). -/
def strongSizeFiltered (s : ℤ × ℤ → ℚ) (p : ℤ × ℤ) : Bool :=
  strongProcessed s p

/-- `moderate_size_filtered = moderate_processed.updateMask(count.gte(4))`. -/
def moderateSizeFiltered (s : ℤ × ℤ → ℚ) (p : ℤ × ℤ) : Bool :=
  moderateProcessed s p &&
    decide (connectedPixelCount (moderateProcessed s) p ≥ 4)

/-- `weak_size_filtered = weak_processed.updateMask(count.gte(6))`. -/
def weakSizeFiltered (s : ℤ × ℤ → ℚ) (p : ℤ × ℤ) : Bool :=
  weakProcessed s p && decide (connectedPixelCount (weakProcessed s) p ≥ 6)

/-- `strong_final = strong_size_filtered` (no edge filter). -/
def strongFinal (s : ℤ × ℤ → ℚ) (p : ℤ × ℤ) : Bool := strongSizeFiltered s p

/-- `moderate_final = moderate_size_filtered.updateMask(edge.Or(constant 1))`:
the `.Or(ee.Image.constant(1))` makes the edge condition vacuous. -/
def moderateFinal (edge : ℤ × ℤ → Bool) (s : ℤ × ℤ → ℚ) (p : ℤ × ℤ) : Bool :=
  moderateSizeFiltered s p && (edge p || true)

/-- `weak_final = weak_size_filtered.updateMask(edge_mask)`. -/
def weakFinal (edge : ℤ × ℤ → Bool) (s : ℤ × ℤ → ℚ) (p : ℤ × ℤ) : Bool :=
  weakSizeFiltered s p && edge p

/-- `combined_mask = strong_final.Or(moderate_final).Or(weak_final)`. -/
def combinedMask (edge : ℤ × ℤ → Bool) (s : ℤ × ℤ → ℚ) (p : ℤ × ℤ) : Bool :=
  strongFinal s p || moderateFinal edge s p || weakFinal edge s p

/-- The final detection mask of `filter_false_positives`: the score is
masked to `combined_mask` and then thresholded at `final_threshold = 0.2`,
so a pixel carries a `final_deforestation_score` value iff it passes both. -/
def finalDetectionMask (edge : ℤ × ℤ → Bool) (s : ℤ × ℤ → ℚ) (p : ℤ × ℤ) : Bool :=
  combinedMask edge s p && decide (s p ≥ 0.2)

/-- Scenario raster: a single isolated detection of score 0.8 at pixel
`(5, 5)`, score 0 everywhere else. -/
def isolatedScore : ℤ × ℤ → ℚ := fun p => if p = (5, 5) then 0.8 else 0

/-- Scenario raster: a contiguous 6x6 block of detections of score 0.8 on
`[3, 8] × [3, 8]`, score 0 everywhere else. -/
def blockScore : ℤ × ℤ → ℚ := fun p =>
  if 3 ≤ p.1 ∧ p.1 ≤ 8 ∧ 3 ≤ p.2 ∧ p.2 ≤ 8 then 0.8 else 0

/-! ## Shared lemmas about the filter stages -/

theorem strongFactor_bounds (s : ℚ) (b a : IndexPixel) :
    0.9 ≤ strongFactor s b a ∧ strongFactor s b a ≤ 1 := by
  unfold strongFactor
  exact ⟨le_clamp _ _ (by norm_num), clamp_le _ (by norm_num) (by norm_num)⟩

theorem moderateFactor_bounds (s : ℚ) (b a : IndexPixel) :
    0.8 ≤ moderateFactor s b a ∧ moderateFactor s b a ≤ 1 := by
  unfold moderateFactor
  exact ⟨le_clamp _ _ (by norm_num), clamp_le _ (by norm_num) (by norm_num)⟩

theorem weakFactor_bounds (s : ℚ) (b a : IndexPixel) :
    0.6 ≤ weakFactor s b a ∧ weakFactor s b a ≤ 1 := by
  unfold weakFactor
  exact ⟨le_clamp _ _ (by norm_num), clamp_le _ (by norm_num) (by norm_num)⟩

/-- The three signal bands partition every score value, so the graduated
seasonal combination at a pixel is the score times the factor of its own
band. -/
theorem applySeasonalFiltering_eq (s : ℚ) (b a : IndexPixel) :
    applySeasonalFiltering s b a =
      if s > 0.7 then s * strongFactor s b a
      else if s > 0.4 then s * moderateFactor s b a
      else s * weakFactor s b a := by
  unfold applySeasonalFiltering
  by_cases h7 : s > 0.7
  · rw [if_pos h7, ind_of_true h7,
      ind_of_false (p := moderateSignal s) (fun h => absurd h.2 (not_le.mpr h7)),
      ind_of_false (p := weakSignal s)
        (fun h => absurd h (not_le.mpr (lt_trans (by norm_num) h7)))]
    ring
  · rw [if_neg h7, ind_of_false (p := strongSignal s) h7]
    by_cases h4 : s > 0.4
    · rw [if_pos h4, ind_of_true (p := moderateSignal s) ⟨h4, not_lt.mp h7⟩,
        ind_of_false (p := weakSignal s) (not_le.mpr h4)]
      ring
    · rw [if_neg h4, ind_of_false (p := moderateSignal s) (fun h => absurd h.1 h4),
        ind_of_true (p := weakSignal s) (not_lt.mp h4)]
      ring

theorem applySeasonalFiltering_bounds (s : ℚ) (b a : IndexPixel)
    (h0 : 0 ≤ s) (h1 : s ≤ 1) :
    0 ≤ applySeasonalFiltering s b a ∧ applySeasonalFiltering s b a ≤ 1 := by
  rw [applySeasonalFiltering_eq]
  obtain ⟨hs0, hs1⟩ := strongFactor_bounds s b a
  obtain ⟨hm0, hm1⟩ := moderateFactor_bounds s b a
  obtain ⟨hw0, hw1⟩ := weakFactor_bounds s b a
  split_ifs
  · exact ⟨mul_nonneg h0 (by linarith), mul_le_one₀ h1 (by linarith) hs1⟩
  · exact ⟨mul_nonneg h0 (by linarith), mul_le_one₀ h1 (by linarith) hm1⟩
  · exact ⟨mul_nonneg h0 (by linarith), mul_le_one₀ h1 (by linarith) hw1⟩

/-- C1: for every admissible input pixel (in particular an input score in
`[0, 1]` for the two filter stages), the pixel value produced by each of
the three scoring stages — `_calculate_primary_score`,
`_apply_seasonal_filtering`, `_apply_false_positive_filters` — stays
within `[0, 1]`. -/
theorem c1_score_stages_bounded (s : ℚ) (b a : IndexPixel)
    (sm T fp spatialMean : ℚ) (h0 : 0 ≤ s) (h1 : s ≤ 1) :
    (0 ≤ calculatePrimaryScore b a sm T ∧ calculatePrimaryScore b a sm T ≤ 1) ∧
    (0 ≤ applySeasonalFiltering s b a ∧ applySeasonalFiltering s b a ≤ 1) ∧
    (0 ≤ applyFalsePositiveFilters s b a fp spatialMean ∧
      applyFalsePositiveFilters s b a fp spatialMean ≤ 1) := by
  refine ⟨?_, applySeasonalFiltering_bounds s b a h0 h1, ?_⟩
  · unfold calculatePrimaryScore
    exact ⟨le_clamp _ _ (by norm_num), clamp_le _ (by norm_num) (by norm_num)⟩
  · unfold applyFalsePositiveFilters
    exact ⟨le_clamp _ _ (by norm_num), clamp_le _ (by norm_num) (by norm_num)⟩

/-- A concrete dense-forest before pixel used by several witnesses. -/
def pixBefore : IndexPixel := ⟨0.8, 0.4, 0.4, 0.3, 0.35⟩

/-- A concrete cleared after pixel used by several witnesses. -/
def pixAfter : IndexPixel := ⟨0.2, 0.1, 0.1, 0, 0⟩

/-- C1 witness at a concrete pixel. -/
theorem c1_score_stages_bounded_witness :
    (0 : ℚ) ≤ 0.5 ∧ (0.5 : ℚ) ≤ 1 ∧
    (0 ≤ calculatePrimaryScore pixBefore pixAfter 1 0.12 ∧
      calculatePrimaryScore pixBefore pixAfter 1 0.12 ≤ 1) ∧
    (0 ≤ applySeasonalFiltering 0.5 pixBefore pixAfter ∧
      applySeasonalFiltering 0.5 pixBefore pixAfter ≤ 1) ∧
    (0 ≤ applyFalsePositiveFilters 0.5 pixBefore pixAfter 0.8 0.5 ∧
      applyFalsePositiveFilters 0.5 pixBefore pixAfter 0.8 0.5 ≤ 1) := by
  have h := c1_score_stages_bounded 0.5 pixBefore pixAfter 1 0.12 0.8 0.5
    (by norm_num) (by norm_num)
  exact ⟨by norm_num, by norm_num, h.1, h.2.1, h.2.2⟩

/-- C3: every multiplicative factor of the false-positive cascade respects
its bound — the seasonal, agricultural and cloud/shadow penalties stay at
or above the strictly positive floors 0.85, 0.8, 0.75; the spatial boost
never exceeds 1.25 (the source even clamps it at 1.15); the
clear-deforestation boost never exceeds 1.6 (the source even clamps it at
1.5); the factors are multiplied onto the input score in the fixed
stage-2 / stage-3 order, and the final result is clamped to `[0, 1]`. -/
theorem c3_cascade_factor_bounds (s : ℚ) (b a : IndexPixel)
    (fp spatialMean : ℚ) :
    (0.85 ≤ seasonalPenalty b a fp ∧ seasonalPenalty b a fp ≤ 1) ∧
    (0.8 ≤ agriculturalPenalty b a fp ∧ agriculturalPenalty b a fp ≤ 1) ∧
    (0.75 ≤ cloudPenalty b a fp ∧ cloudPenalty b a fp ≤ 1) ∧
    spatialBoost spatialMean ≤ 1.15 ∧ spatialBoost spatialMean ≤ 1.25 ∧
    deforestationBoost b a fp ≤ 1.5 ∧ deforestationBoost b a fp ≤ 1.6 ∧
    finalFiltered s b a fp spatialMean =
      s * ind (basicFilter b a) * seasonalPenalty b a fp *
        agriculturalPenalty b a fp * cloudPenalty b a fp *
        deforestationBoost b a fp * spatialBoost spatialMean ∧
    (0 ≤ applyFalsePositiveFilters s b a fp spatialMean ∧
      applyFalsePositiveFilters s b a fp spatialMean ≤ 1) := by
  have hsb : spatialBoost spatialMean ≤ 1.15 := by
    unfold spatialBoost
    exact clamp_le _ (by norm_num) (by norm_num)
  have hdb : deforestationBoost b a fp ≤ 1.5 := by
    unfold deforestationBoost
    exact clamp_le _ (by norm_num) (by norm_num)
  refine ⟨?_, ?_, ?_, hsb, le_trans hsb (by norm_num),
    hdb, le_trans hdb (by norm_num), ?_, ?_⟩
  · unfold seasonalPenalty
    exact ⟨le_clamp _ _ (by norm_num), clamp_le _ (by norm_num) (by norm_num)⟩
  · unfold agriculturalPenalty
    exact ⟨le_clamp _ _ (by norm_num), clamp_le _ (by norm_num) (by norm_num)⟩
  · unfold cloudPenalty
    exact ⟨le_clamp _ _ (by norm_num), clamp_le _ (by norm_num) (by norm_num)⟩
  · unfold finalFiltered stage2Filtered
    ring
  · unfold applyFalsePositiveFilters
    exact ⟨le_clamp _ _ (by norm_num), clamp_le _ (by norm_num) (by norm_num)⟩

/-- C10: a pixel whose input score exceeds 0.7 and which passes the
vegetation-baseline filter and the NDVI-decrease gate is never reduced by
`_apply_false_positive_filters`: the high-confidence preservation branch
guarantees the output is at least the input score. -/
theorem c10_high_confidence_preserved (s : ℚ) (b a : IndexPixel)
    (fp spatialMean : ℚ) (h0 : 0 ≤ s) (h1 : s ≤ 1) (h7 : s > 0.7)
    (hb : basicFilter b a) :
    s ≤ applyFalsePositiveFilters s b a fp spatialMean := by
  have hp : preservedHighConfidence s b a = s := by
    unfold preservedHighConfidence
    rw [ind_of_true h7, ind_of_true hb]
    ring
  unfold applyFalsePositiveFilters
  refine le_clamp_of ?_ h1
  rw [hp]
  exact le_max_right _ _

/-- C10 witness: a dense-forest pixel with a clear decrease and score 0.9. -/
theorem c10_high_confidence_preserved_witness :
    (0 : ℚ) ≤ 0.9 ∧ (0.9 : ℚ) ≤ 1 ∧ (0.9 : ℚ) > 0.7 ∧
    basicFilter pixBefore pixAfter ∧
    0.9 ≤ applyFalsePositiveFilters 0.9 pixBefore pixAfter 0.8 0.5 := by
  have hb : basicFilter pixBefore pixAfter := by
    norm_num [basicFilter, vegetationBaselineFilter, meaningfulVegetation,
      forestPriorityAreas, ndviDecreased, pixBefore, pixAfter]
  exact ⟨by norm_num, by norm_num, by norm_num, hb,
    c10_high_confidence_preserved 0.9 _ _ 0.8 0.5 (by norm_num) (by norm_num)
      (by norm_num) hb⟩

/-- C8: when no band resolves to the SWIR2 role, index calculation still
succeeds, the NBR band degrades to the constant 0, and the NDVI, EVI and
SAVI bands are identical to what they would be with SWIR2 present. -/
theorem c8_missing_swir2 (av : BandAvail) (p : BandPixel)
    (h : av.swir2 = false) :
    (calculateVegetationIndices av p).nbr = 0 ∧
    (calculateVegetationIndices av p).ndvi =
      (calculateVegetationIndices { av with swir2 := true } p).ndvi ∧
    (calculateVegetationIndices av p).evi =
      (calculateVegetationIndices { av with swir2 := true } p).evi ∧
    (calculateVegetationIndices av p).savi =
      (calculateVegetationIndices { av with swir2 := true } p).savi := by
  simp [calculateVegetationIndices, h]

/-- C8 witness: a raster with every role but SWIR2 resolved. -/
theorem c8_missing_swir2_witness :
    (⟨true, true, true, true, true, false⟩ : BandAvail).swir2 = false ∧
    ((calculateVegetationIndices ⟨true, true, true, true, true, false⟩
        ⟨1, 2, 3, 4, 5, 6⟩).nbr = 0 ∧
      (calculateVegetationIndices ⟨true, true, true, true, true, false⟩
          ⟨1, 2, 3, 4, 5, 6⟩).ndvi =
        (calculateVegetationIndices ⟨true, true, true, true, true, true⟩
          ⟨1, 2, 3, 4, 5, 6⟩).ndvi ∧
      (calculateVegetationIndices ⟨true, true, true, true, true, false⟩
          ⟨1, 2, 3, 4, 5, 6⟩).evi =
        (calculateVegetationIndices ⟨true, true, true, true, true, true⟩
          ⟨1, 2, 3, 4, 5, 6⟩).evi ∧
      (calculateVegetationIndices ⟨true, true, true, true, true, false⟩
          ⟨1, 2, 3, 4, 5, 6⟩).savi =
        (calculateVegetationIndices ⟨true, true, true, true, true, true⟩
          ⟨1, 2, 3, 4, 5, 6⟩).savi) :=
  ⟨rfl, c8_missing_swir2 ⟨true, true, true, true, true, false⟩ ⟨1, 2, 3, 4, 5, 6⟩ rfl⟩

/-- The vegetation-threshold combination as claim C6 words it: the product
clamped to the documented range `[0.02, 0.2]` of the data model. -/
def vegetationThresholdClaimed (baseThreshold confidenceFactor : ℚ) : ℚ :=
  max 0.02 (min 0.2 (baseThreshold * confidenceFactor))

/-- C6 counterexample: with `base_threshold = 0.02` (the lowest value the
vegetation analysis can produce) and `confidence_factor = 0.6` (low data
quality), the source clamps the product `0.012` up to `0.03`, not to the
`0.02` that clamping to the documented range `[0.02, 0.2]` would give. -/
theorem c6_clamp_range_counterexample :
    (calculateAdaptiveParameters ⟨0.02, 1.0⟩ 0.95 1.0 0.6
        balancedUser).vegetation_threshold = 0.03 ∧
    vegetationThresholdClaimed 0.02 0.6 = 0.02 ∧
    (0.03 : ℚ) ≠ 0.02 := by
  refine ⟨?_, ?_, by norm_num⟩
  · show max 0.03 (min 0.2 ((0.02 : ℚ) * 0.6)) = 0.03
    norm_num
  · unfold vegetationThresholdClaimed
    norm_num

/-- C6 (amended): the returned `vegetation_threshold` is the product
`base_threshold * confidence_factor` clamped to `[0.03, 0.2]` (hence it
always lies inside the documented `[0.02, 0.2]`), `sensitivity_multiplier`
is the triple product clamped to `[0.5, 2.0]`, and
`false_positive_factor` is `seasonal_factor * user_fp_factor` clamped to
`[0.4, 0.95]`. -/
theorem c6_adaptive_parameter_bounds (veg : VegStats)
    (seasonalFactor climateFactor confidenceFactor : ℚ) (user : UserCtx) :
    (0.03 ≤ (calculateAdaptiveParameters veg seasonalFactor climateFactor
        confidenceFactor user).vegetation_threshold ∧
      0.02 ≤ (calculateAdaptiveParameters veg seasonalFactor climateFactor
        confidenceFactor user).vegetation_threshold ∧
      (calculateAdaptiveParameters veg seasonalFactor climateFactor
        confidenceFactor user).vegetation_threshold ≤ 0.2) ∧
    (0.5 ≤ (calculateAdaptiveParameters veg seasonalFactor climateFactor
        confidenceFactor user).sensitivity_multiplier ∧
      (calculateAdaptiveParameters veg seasonalFactor climateFactor
        confidenceFactor user).sensitivity_multiplier ≤ 2.0) ∧
    (0.4 ≤ (calculateAdaptiveParameters veg seasonalFactor climateFactor
        confidenceFactor user).false_positive_factor ∧
      (calculateAdaptiveParameters veg seasonalFactor climateFactor
        confidenceFactor user).false_positive_factor ≤ 0.95) := by
  unfold calculateAdaptiveParameters
  refine ⟨⟨le_max_left _ _, le_trans (by norm_num) (le_max_left _ _), ?_⟩,
    ⟨le_max_left _ _, ?_⟩, ⟨le_max_left _ _, ?_⟩⟩
  · exact max_le (by norm_num) (min_le_left _ _)
  · exact max_le (by norm_num) (min_le_left _ _)
  · exact max_le (by norm_num) (min_le_left _ _)

/-- C7 counterexample: when the vegetation sub-analysis fails but the
others succeed (seasonal factor 0.95, climate 1.0, confidence 1.0,
balanced user preferences), `analyze_data_characteristics` substitutes the
vegetation sub-step's own defaults (`base_threshold 0.08`,
`sensitivity_multiplier 1.1`) and continues: the record it returns is not
the fixed conservative fallback (0.12, 1.0, 0.8, 0.8). -/
theorem c7_sub_failure_counterexample :
    analyzeDataCharacteristics (Except.error "statistics unavailable")
        (Except.ok 0.95) (Except.ok 1.0) (Except.ok 1.0) balancedUser =
      Except.ok ⟨0.08, 1.1, 0.7125, 1.0⟩ ∧
    (⟨0.08, 1.1, 0.7125, 1.0⟩ : AdaptiveParams) ≠ getFallbackParameters := by
  constructor
  · unfold analyzeDataCharacteristics calculateAdaptiveParameters
      vegAnalysisFallback balancedUser
    norm_num
  · intro h
    have h2 := congrArg AdaptiveParams.vegetation_threshold h
    unfold getFallbackParameters at h2
    norm_num at h2

/-- C7 (amended): `analyze_data_characteristics` never raises — the result
is always `ok` — and a failing sub-analysis is replaced by that sub-step's
own conservative defaults (vegetation: threshold 0.08 / multiplier 1.1;
seasonal factor 0.8; climate factor 1.0; confidence 0.8) after which the
combination proceeds; the fixed record `_get_fallback_parameters` is
reserved for a failure of the orchestration itself. -/
theorem c7_analyze_never_raises (e : String) (vegRes : Except String VegStats)
    (seasRes geoRes qualRes : Except String ℚ) (user : UserCtx) :
    (∃ r, analyzeDataCharacteristics vegRes seasRes geoRes qualRes user =
      Except.ok r) ∧
    analyzeDataCharacteristics (Except.error e) seasRes geoRes qualRes user =
      analyzeDataCharacteristics (Except.ok vegAnalysisFallback) seasRes
        geoRes qualRes user ∧
    analyzeDataCharacteristics vegRes (Except.error e) geoRes qualRes user =
      analyzeDataCharacteristics vegRes (Except.ok seasonalAnalysisFallback)
        geoRes qualRes user ∧
    analyzeDataCharacteristics vegRes seasRes (Except.error e) qualRes user =
      analyzeDataCharacteristics vegRes seasRes
        (Except.ok geographicAnalysisFallback) qualRes user ∧
    analyzeDataCharacteristics vegRes seasRes geoRes (Except.error e) user =
      analyzeDataCharacteristics vegRes seasRes geoRes
        (Except.ok dataQualityAnalysisFallback) user :=
  ⟨⟨_, rfl⟩, rfl, rfl, rfl, rfl⟩

/-- C2 counterexample: with the admissible threshold `T = 0.02`, a pixel
with before-NDVI 0.06, after-NDVI 0, before-EVI 0.1 and after-EVI 0.05
satisfies the dense-forest baseline and, through the EVI-degradation arm
of the degraded-areas detection, the sparse-vegetation baseline at the
same time — the regimes are not pixel-disjoint. -/
theorem c2_regime_overlap_counterexample :
    ((0.02 : ℚ) ≤ 0.02 ∧ (0.02 : ℚ) ≤ 0.2) ∧
    denseForestBaseline ⟨0.06, 0.1, 0, 0, 0⟩ ⟨0, 0.05, 0, 0, 0⟩ 0.02 ∧
    degradedAreasBaseline ⟨0.06, 0.1, 0, 0, 0⟩ ⟨0, 0.05, 0, 0, 0⟩ ∧
    sparseVegetationBaseline ⟨0.06, 0.1, 0, 0, 0⟩ ⟨0, 0.05, 0, 0, 0⟩ 0.02 := by
  have hdeg : degradedAreasBaseline ⟨0.06, 0.1, 0, 0, 0⟩ ⟨0, 0.05, 0, 0, 0⟩ := by
    refine Or.inr (Or.inl ?_)
    unfold eviDegradationBaseline eviChange
    norm_num
  refine ⟨⟨le_refl _, by norm_num⟩, ?_, hdeg, Or.inr hdeg⟩
  unfold denseForestBaseline negativeNdviMask
  norm_num

/-- C2 (amended): the dense, moderate and standard-sparse baselines are
pairwise disjoint for every admissible threshold, and the strict fallback
is disjoint from all baselines by construction, but the degraded-areas arm
folded into the sparse regime can overlap the dense/moderate baselines; a
regime contributes 0 where its condition fails, and the final score is the
pixelwise maximum of the four regime scores clamped to `[0, 1]`. -/
theorem c2_regime_dispatch (b a : IndexPixel) (sm T : ℚ) (hT : 0.02 ≤ T) :
    ¬ (denseForestBaseline b a T ∧ moderateVegetationBaseline b a T) ∧
    ¬ (denseForestBaseline b a T ∧ standardSparseBaseline b a T) ∧
    ¬ (moderateVegetationBaseline b a T ∧ standardSparseBaseline b a T) ∧
    (strictFallbackCondition b a T → ¬ anyBaseline b a T) ∧
    (¬ denseForestBaseline b a T → denseForestScore b a sm T = 0) ∧
    (¬ moderateVegetationBaseline b a T →
      moderateVegetationScore b a sm T = 0) ∧
    (¬ sparseVegetationBaseline b a T → sparseVegetationScore b a sm T = 0) ∧
    (¬ strictFallbackCondition b a T → strictFallbackScore b a T = 0) ∧
    calculatePrimaryScore b a sm T =
      clamp
        (max
          (max
            (max (denseForestScore b a sm T) (moderateVegetationScore b a sm T))
            (sparseVegetationScore b a sm T))
          (strictFallbackScore b a T))
        0 1 := by
  refine ⟨?_, ?_, ?_, fun h => h.1, ?_, ?_, ?_, ?_, rfl⟩
  · rintro ⟨⟨h1, -, -⟩, ⟨-, h2, -⟩⟩
    linarith
  · rintro ⟨⟨h1, -, -⟩, ⟨-, h2, -⟩⟩
    linarith
  · rintro ⟨⟨h1, -⟩, ⟨-, h2, -⟩⟩
    linarith
  · intro h
    unfold denseForestScore
    rw [ind_of_false h, mul_zero]
  · intro h
    unfold moderateVegetationScore
    rw [ind_of_false h, mul_zero]
  · intro h
    unfold sparseVegetationScore standardSparseScore degradedAreasScore
    rw [ind_of_false (fun hc => h hc.1), ind_of_false (fun hc => h hc.1),
      mul_zero, mul_zero, max_self]
  · intro h
    unfold strictFallbackScore
    rw [ind_of_false h, mul_zero]

/-- C2 witness: a dense-forest pixel at the default adaptive threshold. -/
theorem c2_regime_dispatch_witness :
    (0.02 : ℚ) ≤ 0.12 ∧
    ¬ (denseForestBaseline pixBefore pixAfter 0.12 ∧
      moderateVegetationBaseline pixBefore pixAfter 0.12) ∧
    calculatePrimaryScore pixBefore pixAfter 1 0.12 =
      clamp
        (max
          (max
            (max (denseForestScore pixBefore pixAfter 1 0.12)
              (moderateVegetationScore pixBefore pixAfter 1 0.12))
            (sparseVegetationScore pixBefore pixAfter 1 0.12))
          (strictFallbackScore pixBefore pixAfter 0.12))
        0 1 := by
  have h := c2_regime_dispatch pixBefore pixAfter 1 0.12 (by norm_num)
  exact ⟨by norm_num, h.1, h.2.2.2.2.2.2.2.2⟩

/-- C4: whenever the seasonal filter's false-positive indicator fires for
a strong pixel (score 0.9), the output is exactly `0.9 * 0.9 = 0.81`, so
at least the claimed floor; an otherwise-identical pixel with score 0.3
under the same index patterns loses a strictly larger share of its input
(40 percent against 10 percent). -/
theorem c4_seasonal_graduated_damping (b a : IndexPixel)
    (hfp : likelyFalsePositive 0.9 b a) :
    applySeasonalFiltering 0.9 b a = 0.81 ∧
    0.9 * 0.9 ≤ applySeasonalFiltering 0.9 b a ∧
    applySeasonalFiltering 0.3 b a = 0.18 ∧
    (0.3 - applySeasonalFiltering 0.3 b a) / 0.3 >
      (0.9 - applySeasonalFiltering 0.9 b a) / 0.9 := by
  have hfp3 : likelyFalsePositive 0.3 b a := by
    rcases hfp with h | ⟨-, hw⟩ | h
    · exact Or.inl h
    · exact absurd hw (by norm_num)
    · exact Or.inr (Or.inr h)
  have h9 : applySeasonalFiltering 0.9 b a = 0.81 := by
    rw [applySeasonalFiltering_eq, if_pos (by norm_num : (0.9 : ℚ) > 0.7)]
    unfold strongFactor clamp
    rw [ind_of_true hfp]
    norm_num
  have h3 : applySeasonalFiltering 0.3 b a = 0.18 := by
    rw [applySeasonalFiltering_eq,
      if_neg (by norm_num : ¬ ((0.3 : ℚ) > 0.7)),
      if_neg (by norm_num : ¬ ((0.3 : ℚ) > 0.4))]
    unfold weakFactor clamp
    rw [ind_of_true hfp3]
    norm_num
  refine ⟨h9, by rw [h9]; norm_num, h3, ?_⟩
  rw [h9, h3]
  norm_num

/-- C4 witness: index values showing the agricultural-signature pattern,
which fires the indicator for both score bands. -/
theorem c4_seasonal_graduated_damping_witness :
    likelyFalsePositive 0.9 ⟨0.3, 0, 0, 0, 0⟩ ⟨0, 0, 0, 0, 0⟩ ∧
    applySeasonalFiltering 0.9 ⟨0.3, 0, 0, 0, 0⟩ ⟨0, 0, 0, 0, 0⟩ = 0.81 ∧
    applySeasonalFiltering 0.3 ⟨0.3, 0, 0, 0, 0⟩ ⟨0, 0, 0, 0, 0⟩ = 0.18 := by
  have hfp : likelyFalsePositive 0.9 ⟨0.3, 0, 0, 0, 0⟩ ⟨0, 0, 0, 0, 0⟩ := by
    refine Or.inl ?_
    unfold potentialAgriculture ndviChange
    norm_num
  have h := c4_seasonal_graduated_damping ⟨0.3, 0, 0, 0, 0⟩ ⟨0, 0, 0, 0, 0⟩ hfp
  exact ⟨hfp, h.1, h.2.2.1⟩

theorem primaryBlend_nonneg (b a : IndexPixel) (sm : ℚ) :
    0 ≤ primaryBlend b a sm := by
  unfold primaryBlend absoluteScore relativeScore nbrScore
  exact add_nonneg
    (add_nonneg (mul_nonneg (clamp_lower _ _ _) (by norm_num))
      (mul_nonneg (clamp_lower _ _ _) (by norm_num)))
    (mul_nonneg (clamp_lower _ _ _) (by norm_num))

theorem standardSparseEnhancedScore_nonneg (b a : IndexPixel) (sm : ℚ) :
    0 ≤ standardSparseEnhancedScore b a sm := by
  unfold standardSparseEnhancedScore
  exact clamp_lower _ _ _

theorem degradedConsensusScore_nonneg (b a : IndexPixel) (sm : ℚ) :
    0 ≤ degradedConsensusScore b a sm := by
  unfold degradedConsensusScore eviScoreDegraded ndmiLossScore nbrLossScore
  exact add_nonneg
    (add_nonneg (mul_nonneg (clamp_lower _ _ _) (by norm_num))
      (mul_nonneg (clamp_lower _ _ _) (by norm_num)))
    (mul_nonneg (clamp_lower _ _ _) (by norm_num))

/-- C5: holding the before pixel and the EVI/SAVI/NDMI/NBR after values
fixed, lowering the after NDVI (that is, increasing the NDVI loss) at a
pixel satisfying the dense-forest baseline never decreases the final
primary score. -/
theorem c5_dense_forest_monotone (b : IndexPixel) (aN aN2 aE aS aM aB sm T : ℚ)
    (hsm : 0 ≤ sm)
    (hdense : denseForestBaseline b ⟨aN, aE, aS, aM, aB⟩ T)
    (hN : aN2 ≤ aN) :
    calculatePrimaryScore b ⟨aN, aE, aS, aM, aB⟩ sm T ≤
      calculatePrimaryScore b ⟨aN2, aE, aS, aM, aB⟩ sm T := by
  have hch : ndviChange b ⟨aN, aE, aS, aM, aB⟩ ≤
      ndviChange b ⟨aN2, aE, aS, aM, aB⟩ := by
    show b.ndvi - aN ≤ b.ndvi - aN2
    linarith
  have hdec : ndviDecrease b ⟨aN, aE, aS, aM, aB⟩ ≤
      ndviDecrease b ⟨aN2, aE, aS, aM, aB⟩ := clamp_mono _ _ hch
  have hmul18 : (0 : ℚ) ≤ 1.8 * sm := mul_nonneg (by norm_num) hsm
  have hmul14 : (0 : ℚ) ≤ 1.4 * sm := mul_nonneg (by norm_num) hsm
  have hmul20 : (0 : ℚ) ≤ 2.0 * sm := mul_nonneg (by norm_num) hsm
  have habs : absoluteScore b ⟨aN, aE, aS, aM, aB⟩ sm ≤
      absoluteScore b ⟨aN2, aE, aS, aM, aB⟩ sm :=
    clamp_mono _ _ (mul_le_mul_of_nonneg_right hdec hmul18)
  have hbn : (0.05 : ℚ) ≤ b.ndvi := not_lt.mp hdense.2.2
  have hden_pos : (0 : ℚ) < b.ndvi + 0.01 := by linarith
  have hrel : relativeNdviChange b ⟨aN, aE, aS, aM, aB⟩ ≤
      relativeNdviChange b ⟨aN2, aE, aS, aM, aB⟩ := by
    unfold relativeNdviChange
    apply clamp_mono
    gcongr
  have hrelS : relativeScore b ⟨aN, aE, aS, aM, aB⟩ sm ≤
      relativeScore b ⟨aN2, aE, aS, aM, aB⟩ sm :=
    clamp_mono _ _ (mul_le_mul_of_nonneg_right hrel hmul14)
  have hnbr : nbrScore b ⟨aN2, aE, aS, aM, aB⟩ sm =
      nbrScore b ⟨aN, aE, aS, aM, aB⟩ sm := rfl
  have hprim : primaryBlend b ⟨aN, aE, aS, aM, aB⟩ sm ≤
      primaryBlend b ⟨aN2, aE, aS, aM, aB⟩ sm := by
    unfold primaryBlend
    rw [hnbr]
    have h4 := mul_le_mul_of_nonneg_right habs (by norm_num : (0 : ℚ) ≤ 0.4)
    have h3 := mul_le_mul_of_nonneg_right hrelS (by norm_num : (0 : ℚ) ≤ 0.3)
    linarith
  have hsec : secondaryScore b ⟨aN, aE, aS, aM, aB⟩ sm ≤
      secondaryScore b ⟨aN2, aE, aS, aM, aB⟩ sm := by
    unfold secondaryScore
    by_cases hc : consistencyCheck b ⟨aN, aE, aS, aM, aB⟩
    · have hc2 : consistencyCheck b ⟨aN2, aE, aS, aM, aB⟩ :=
        ⟨lt_of_lt_of_le hc.1 hdec, hc.2.1, hc.2.2⟩
      rw [ind_of_true hc, ind_of_true hc2, mul_one, mul_one]
      exact hprim
    · rw [ind_of_false hc, mul_zero]
      exact mul_nonneg (primaryBlend_nonneg _ _ _) (ind_nonneg _)
  have hdense2 : denseForestBaseline b ⟨aN2, aE, aS, aM, aB⟩ T :=
    ⟨hdense.1, lt_of_le_of_lt hN hdense.2.1, hdense.2.2⟩
  have hdensescore : denseForestScore b ⟨aN, aE, aS, aM, aB⟩ sm T ≤
      denseForestScore b ⟨aN2, aE, aS, aM, aB⟩ sm T := by
    unfold denseForestScore
    rw [ind_of_true hdense, ind_of_true hdense2, mul_one, mul_one]
    exact mul_le_mul_of_nonneg_right hsec (by norm_num)
  have hmodscore : moderateVegetationScore b ⟨aN, aE, aS, aM, aB⟩ sm T ≤
      moderateVegetationScore b ⟨aN2, aE, aS, aM, aB⟩ sm T := by
    unfold moderateVegetationScore
    by_cases hm : moderateVegetationBaseline b ⟨aN, aE, aS, aM, aB⟩ T
    · have hm2 : moderateVegetationBaseline b ⟨aN2, aE, aS, aM, aB⟩ T :=
        ⟨hm.1, hm.2.1, lt_of_le_of_lt hN hm.2.2.1, hm.2.2.2⟩
      rw [ind_of_true hm, ind_of_true hm2, mul_one, mul_one]
      exact mul_le_mul_of_nonneg_right hprim (by norm_num)
    · rw [ind_of_false hm, mul_zero]
      exact mul_nonneg (mul_nonneg (primaryBlend_nonneg _ _ _) (by norm_num))
        (ind_nonneg _)
  have hsse : standardSparseEnhancedScore b ⟨aN, aE, aS, aM, aB⟩ sm ≤
      standardSparseEnhancedScore b ⟨aN2, aE, aS, aM, aB⟩ sm :=
    clamp_mono _ _ (mul_le_mul_of_nonneg_right hdec hmul20)
  have hsparse_imp : sparseVegetationBaseline b ⟨aN, aE, aS, aM, aB⟩ T →
      sparseVegetationBaseline b ⟨aN2, aE, aS, aM, aB⟩ T := by
    rintro (hstd | hdeg)
    · exact Or.inl ⟨hstd.1, hstd.2.1, lt_of_lt_of_le hstd.2.2.1 hch, hstd.2.2.2⟩
    · exact Or.inr hdeg
  have hstdsparse : standardSparseScore b ⟨aN, aE, aS, aM, aB⟩ sm T ≤
      standardSparseScore b ⟨aN2, aE, aS, aM, aB⟩ sm T := by
    unfold standardSparseScore
    by_cases hg : sparseVegetationBaseline b ⟨aN, aE, aS, aM, aB⟩ T ∧
        ¬ negativeNdviMask b
    · rw [ind_of_true hg, ind_of_true ⟨hsparse_imp hg.1, hg.2⟩, mul_one, mul_one]
      exact hsse
    · rw [ind_of_false hg, mul_zero]
      exact mul_nonneg (standardSparseEnhancedScore_nonneg _ _ _) (ind_nonneg _)
  have hdegscore : degradedAreasScore b ⟨aN, aE, aS, aM, aB⟩ sm T ≤
      degradedAreasScore b ⟨aN2, aE, aS, aM, aB⟩ sm T := by
    unfold degradedAreasScore
    by_cases hg : sparseVegetationBaseline b ⟨aN, aE, aS, aM, aB⟩ T ∧
        (negativeNdviMask b ∨ lowNdviMask b T)
    · rw [ind_of_true hg, ind_of_true ⟨hsparse_imp hg.1, hg.2⟩, mul_one, mul_one]
      exact le_rfl
    · rw [ind_of_false hg, mul_zero]
      exact mul_nonneg (degradedConsensusScore_nonneg _ _ _) (ind_nonneg _)
  have hsparsescore : sparseVegetationScore b ⟨aN, aE, aS, aM, aB⟩ sm T ≤
      sparseVegetationScore b ⟨aN2, aE, aS, aM, aB⟩ sm T :=
    max_le_max hstdsparse hdegscore
  have hf1 : strictFallbackScore b ⟨aN, aE, aS, aM, aB⟩ T = 0 := by
    unfold strictFallbackScore
    rw [ind_of_false (fun h => h.1 (Or.inl hdense)), mul_zero]
  have hf2 : strictFallbackScore b ⟨aN2, aE, aS, aM, aB⟩ T = 0 := by
    unfold strictFallbackScore
    rw [ind_of_false (fun h => h.1 (Or.inl hdense2)), mul_zero]
  unfold calculatePrimaryScore
  apply clamp_mono
  rw [hf1, hf2]
  exact max_le_max (max_le_max (max_le_max hdensescore hmodscore) hsparsescore)
    le_rfl

/-- C5 witness: a dense pixel whose after NDVI is lowered from 0.4 to 0.3. -/
theorem c5_dense_forest_monotone_witness :
    (0 : ℚ) ≤ 1 ∧
    denseForestBaseline ⟨0.8, 0.4, 0.4, 0.3, 0.35⟩ ⟨0.4, 0.1, 0.1, 0, 0⟩ 0.12 ∧
    (0.3 : ℚ) ≤ 0.4 ∧
    calculatePrimaryScore ⟨0.8, 0.4, 0.4, 0.3, 0.35⟩ ⟨0.4, 0.1, 0.1, 0, 0⟩ 1 0.12 ≤
      calculatePrimaryScore ⟨0.8, 0.4, 0.4, 0.3, 0.35⟩ ⟨0.3, 0.1, 0.1, 0, 0⟩ 1 0.12 := by
  have hdense : denseForestBaseline ⟨0.8, 0.4, 0.4, 0.3, 0.35⟩
      ⟨0.4, 0.1, 0.1, 0, 0⟩ 0.12 := by
    unfold denseForestBaseline negativeNdviMask
    norm_num
  exact ⟨by norm_num, hdense, by norm_num,
    c5_dense_forest_monotone ⟨0.8, 0.4, 0.4, 0.3, 0.35⟩ 0.4 0.3 0.1 0.1 0 0 1
      0.12 (by norm_num) hdense (by norm_num)⟩

/-! ## Lemmas for the morphological scenario -/

theorem list_all_eq_false {α : Type} {l : List α} {f : α → Bool} (o : α)
    (ho : o ∈ l) (hf : f o = false) : l.all f = false := by
  cases h : l.all f
  · rfl
  · have h2 := List.all_eq_true.mp h o ho
    rw [hf] at h2
    exact Bool.noConfusion h2

theorem list_any_eq_false {α : Type} {l : List α} {f : α → Bool}
    (h : ∀ o ∈ l, f o = false) : l.any f = false := by
  cases h2 : l.any f
  · rfl
  · obtain ⟨o, ho, hfo⟩ := List.any_eq_true.mp h2
    rw [h o ho] at hfo
    exact Bool.noConfusion hfo

theorem focalMin_false_of {m : ℤ × ℤ → Bool} (h : ∀ q, m q = false)
    (p : ℤ × ℤ) : focalMin m p = false :=
  list_all_eq_false (0, 0) (by simp [kernelSquare1]) (h _)

theorem focalMax_false_of {m : ℤ × ℤ → Bool} (h : ∀ q, m q = false)
    (p : ℤ × ℤ) : focalMax m p = false :=
  list_any_eq_false (fun _ _ => h _)

theorem band_false_left {x : Bool} (y : Bool) (hx : x = false) :
    (x && y) = false := by
  rw [hx, Bool.false_and]

theorem band_false_right (x : Bool) {y : Bool} (hy : y = false) :
    (x && y) = false := by
  rw [hy, Bool.and_false]

theorem isolatedScore_ne {q : ℤ × ℤ} (h : q ≠ (5, 5)) : isolatedScore q = 0 :=
  if_neg h

theorem strongMask_isolated_false {q : ℤ × ℤ} (h : q ≠ (5, 5)) :
    strongMask isolatedScore q = false := by
  unfold strongMask
  rw [isolatedScore_ne h]
  exact decide_eq_false (by norm_num)

theorem focalMin_strong_isolated (p : ℤ × ℤ) :
    focalMin (strongMask isolatedScore) p = false := by
  unfold focalMin
  by_cases h : shift p (-1, 0) = (5, 5)
  · refine list_all_eq_false (1, 0) (by simp [kernelSquare1]) ?_
    apply strongMask_isolated_false
    unfold shift at h ⊢
    simp [Prod.ext_iff] at h ⊢
    omega
  · exact list_all_eq_false (-1, 0) (by simp [kernelSquare1])
      (strongMask_isolated_false h)

theorem moderateMask_isolated (q : ℤ × ℤ) :
    moderateMask isolatedScore q = false := by
  unfold moderateMask
  by_cases h : q = (5, 5)
  · subst h
    rw [show isolatedScore (5, 5) = 0.8 from if_pos rfl]
    exact band_false_right _ (decide_eq_false (by norm_num))
  · rw [isolatedScore_ne h]
    exact band_false_left _ (decide_eq_false (by norm_num))

theorem weakMask_isolated (q : ℤ × ℤ) : weakMask isolatedScore q = false := by
  unfold weakMask
  by_cases h : q = (5, 5)
  · subst h
    rw [show isolatedScore (5, 5) = 0.8 from if_pos rfl]
    exact band_false_right _ (decide_eq_false (by norm_num))
  · rw [isolatedScore_ne h]
    exact band_false_left _ (decide_eq_false (by norm_num))

theorem strongProcessed_isolated (p : ℤ × ℤ) :
    strongProcessed isolatedScore p = false :=
  focalMax_false_of focalMin_strong_isolated p

theorem moderateProcessed_isolated (p : ℤ × ℤ) :
    moderateProcessed isolatedScore p = false :=
  focalMax_false_of (focalMin_false_of moderateMask_isolated) p

theorem weakProcessed_isolated (p : ℤ × ℤ) :
    weakProcessed isolatedScore p = false :=
  focalMax_false_of (focalMax_false_of (focalMin_false_of weakMask_isolated)) p

theorem blockScore_mem {x y : ℤ} (h1 : 3 ≤ x) (h2 : x ≤ 8) (h3 : 3 ≤ y)
    (h4 : y ≤ 8) : blockScore (x, y) = 0.8 :=
  if_pos ⟨h1, h2, h3, h4⟩

theorem strongMask_block {x y : ℤ} (h1 : 3 ≤ x) (h2 : x ≤ 8) (h3 : 3 ≤ y)
    (h4 : y ≤ 8) : strongMask blockScore (x, y) = true := by
  unfold strongMask
  rw [blockScore_mem h1 h2 h3 h4]
  exact decide_eq_true (by norm_num)

theorem focalMin_strong_block {x y : ℤ} (h1 : 4 ≤ x) (h2 : x ≤ 7)
    (h3 : 4 ≤ y) (h4 : y ≤ 7) :
    focalMin (strongMask blockScore) (x, y) = true := by
  unfold focalMin
  apply List.all_eq_true.mpr
  intro o ho
  simp only [kernelSquare1, List.mem_cons, List.not_mem_nil, or_false] at ho
  rcases ho with rfl | rfl | rfl | rfl | rfl | rfl | rfl | rfl | rfl <;>
    exact strongMask_block (by omega) (by omega) (by omega) (by omega)

theorem strongProcessed_block {x y : ℤ} (h1 : 3 ≤ x) (h2 : x ≤ 8)
    (h3 : 3 ≤ y) (h4 : y ≤ 8) : strongProcessed blockScore (x, y) = true := by
  unfold strongProcessed focalMax
  apply List.any_eq_true.mpr
  refine ⟨(max 4 (min 7 x) - x, max 4 (min 7 y) - y), ?_, ?_⟩
  · have hx : max 4 (min 7 x) - x = -1 ∨ max 4 (min 7 x) - x = 0 ∨
        max 4 (min 7 x) - x = 1 := by omega
    have hy : max 4 (min 7 y) - y = -1 ∨ max 4 (min 7 y) - y = 0 ∨
        max 4 (min 7 y) - y = 1 := by omega
    rcases hx with h | h | h <;> rcases hy with h5 | h5 | h5 <;>
      rw [h, h5] <;> simp [kernelSquare1]
  · have hs : shift (x, y) (max 4 (min 7 x) - x, max 4 (min 7 y) - y) =
        (max 4 (min 7 x), max 4 (min 7 y)) := by
      unfold shift
      simp only [Prod.mk.injEq]
      omega
    rw [hs]
    exact focalMin_strong_block (by omega) (by omega) (by omega) (by omega)

/-- C9: after the morphological and size post-filtering of
`filter_false_positives`, a single isolated detection pixel surrounded by
non-detections is absent from the final mask at every pixel, while every
pixel of an otherwise-identical contiguous 6x6 block of detections is
retained — for any AOI edge mask. -/
theorem c9_morphological_scenarios (edge : ℤ × ℤ → Bool) :
    (∀ p : ℤ × ℤ, finalDetectionMask edge isolatedScore p = false) ∧
    (∀ x y : ℤ, 3 ≤ x → x ≤ 8 → 3 ≤ y → y ≤ 8 →
      finalDetectionMask edge blockScore (x, y) = true) := by
  constructor
  · intro p
    unfold finalDetectionMask combinedMask strongFinal strongSizeFiltered
      moderateFinal moderateSizeFiltered weakFinal weakSizeFiltered
    rw [strongProcessed_isolated, moderateProcessed_isolated,
      weakProcessed_isolated]
    simp
  · intro x y h1 h2 h3 h4
    unfold finalDetectionMask combinedMask strongFinal strongSizeFiltered
    rw [strongProcessed_block h1 h2 h3 h4]
    simp only [Bool.true_or, Bool.true_and]
    rw [blockScore_mem h1 h2 h3 h4]
    exact decide_eq_true (by norm_num)

/-- C9 witness: the isolated pixel itself is dropped and the corner pixel
of the 6x6 block is retained, with a trivial edge mask. -/
theorem c9_morphological_scenarios_witness :
    finalDetectionMask (fun _ => true) isolatedScore (5, 5) = false ∧
    ((3 : ℤ) ≤ 3 ∧ (3 : ℤ) ≤ 8) ∧
    finalDetectionMask (fun _ => true) blockScore (3, 3) = true := by
  have h := c9_morphological_scenarios (fun _ => true)
  exact ⟨h.1 (5, 5), ⟨le_refl _, by norm_num⟩,
    h.2 3 3 (by norm_num) (by norm_num) (by norm_num) (by norm_num)⟩

end IndiAlert







